import Mathlib

/-!
Shallow embedding of the EarthQuakeDecte WebSocket server
(`server/websocket-server.js`) and its earthquake algorithm library
(`earthquake-algorithm.js`), together with the alert buffer kept by the
CLI monitor dashboard.  JavaScript numbers are modelled as real numbers,
timestamps as integers, JavaScript `Map`s as association lists in
insertion order, `undefined`/absent fields as `Option`, and the string
truthiness tests of the validation code as emptiness tests.
-/

namespace EQD

/-! ## The algorithm library (`earthquake-algorithm.js`) -/

/-- `calculateMagnitude(ax, ay, az)`: vector magnitude of the acceleration,
then `log10(acceleration + 1) * 2` clamped to the range 0..10. -/
noncomputable def calculateMagnitude (ax ay az : ℝ) : ℝ :=
  let acceleration := Real.sqrt (ax ^ 2 + ay ^ 2 + az ^ 2)
  let magnitude := Real.logb 10 (acceleration + 1) * 2
  max 0 (min magnitude 10)

/-- `calculateIntensity(ax, ay, az, distance = 10)`: modified Mercalli
intensity estimated from the acceleration vector and the distance,
clamped to 1..12. -/
noncomputable def calculateIntensity (ax ay az : ℝ) (distance : ℝ) : ℝ :=
  let acceleration := Real.sqrt (ax ^ 2 + ay ^ 2 + az ^ 2)
  let magnitude := Real.logb 10 (acceleration + 1) * 2
  let d := if distance ≤ 0 then 1 else distance
  let intensity := magnitude - Real.logb 10 d * 0.2 - 0.5
  max 1 (min 12 intensity)

/-- Result record of `calculateJmaSeismicIntensity`. -/
structure JmaResult where
  intensity : ℝ
  pga : ℝ
  pga_raw : ℝ

/-- `calculateJmaSeismicIntensity(ax, ay, az, correctionFactor = 1.0)`:
peak ground acceleration in m/s² and the JMA intensity ladder. -/
noncomputable def calculateJmaSeismicIntensity (ax ay az : ℝ)
    (correctionFactor : ℝ) : JmaResult :=
  let pgaValue := Real.sqrt (ax ^ 2 + ay ^ 2 + az ^ 2) * 9.8
  let correctedPGA := pgaValue * correctionFactor
  let intensity : ℝ :=
    if correctedPGA < 0.0017 then 0
    else if correctedPGA < 0.014 then 1
    else if correctedPGA < 0.039 then 1.5
    else if correctedPGA < 0.098 then 2
    else if correctedPGA < 0.197 then 2.5
    else if correctedPGA < 0.394 then 3
    else if correctedPGA < 0.787 then 3.5
    else if correctedPGA < 1.637 then 4
    else if correctedPGA < 3.386 then 4.5
    else if correctedPGA < 6.889 then 5
    else if correctedPGA < 14.050 then 5.5
    else if correctedPGA < 28.650 then 6
    else 6.5
  { intensity := intensity, pga := correctedPGA, pga_raw := pgaValue }

/-- `classifyEarthquake(magnitude)`. -/
noncomputable def classifyEarthquake (magnitude : ℝ) : String :=
  if magnitude < 2.0 then "微震"
  else if magnitude < 3.0 then "弱震"
  else if magnitude < 5.0 then "轻震"
  else if magnitude < 6.0 then "中震"
  else if magnitude < 7.0 then "强震"
  else if magnitude < 8.0 then "大地震"
  else "巨大地震"

/-- Result record of `assessAlertLevel`. -/
structure AlertAssessment where
  level : String
  message : String
  color : String

/-- `assessAlertLevel(magnitude, intensity)`. -/
noncomputable def assessAlertLevel (magnitude intensity : ℝ) : AlertAssessment :=
  if magnitude ≥ 7.0 ∨ intensity ≥ 9 then
    ⟨"严重", "强烈地震，可能造成重大损害", "red"⟩
  else if magnitude ≥ 5.0 ∨ intensity ≥ 7 then
    ⟨"高", "较强地震，可能造成损害", "orange"⟩
  else if magnitude ≥ 4.0 ∨ intensity ≥ 5 then
    ⟨"中", "中等地震，可能感受到震动", "yellow"⟩
  else if magnitude ≥ 3.0 ∨ intensity ≥ 3 then
    ⟨"低", "轻微地震，可能被部分人感受到", "blue"⟩
  else
    ⟨"無", "未检测到地震活动", "green"⟩

/-- `detectEarthquake(magnitude, threshold = 3.0)`. -/
noncomputable def detectEarthquake (magnitude : ℝ) (threshold : ℝ) : Bool :=
  magnitude ≥ threshold

/-- `calculateEnergy(magnitude)`: Gutenberg-Richter relation `10^(4.8 + 1.5 M)`. -/
noncomputable def calculateEnergy (magnitude : ℝ) : ℝ :=
  (10 : ℝ) ^ (4.8 + 1.5 * magnitude)

/-- Result record of `calculateImpactRadius`. -/
structure ImpactRadius where
  extreme : ℝ
  strong : ℝ
  moderate : ℝ
  felt : ℝ

/-- `calculateImpactRadius(magnitude)`. -/
noncomputable def calculateImpactRadius (magnitude : ℝ) : ImpactRadius :=
  { extreme := if magnitude > 6.0 then (10 : ℝ) ^ (magnitude / 2 - 1) else 0
    strong := if magnitude > 5.0 then (10 : ℝ) ^ (magnitude / 2)
              else (10 : ℝ) ^ (magnitude / 2.5)
    moderate := (10 : ℝ) ^ (magnitude / 2 + 1)
    felt := (10 : ℝ) ^ (magnitude / 1.5 + 2) }

/-! ## Server data model (`websocket-server.js`) -/

/-- `Number.prototype.toFixed(digits)` followed by `parseFloat`: rounding to
`digits` decimal places, ties rounded up. -/
noncomputable def toFixedRound (digits : ℕ) (x : ℝ) : ℝ :=
  ((round (x * 10 ^ digits) : ℤ) : ℝ) / 10 ^ digits

/-- One entry of the `clients` map: per-connection metadata.  `isOpen`
models `readyState === WebSocket.OPEN` of the underlying socket. -/
structure ClientInfo where
  id : String
  isOpen : Bool
  connectedAt : Int
  lastHeartbeat : Int
  deviceId : Option String
  clientType : String

/-- The enriched sensor record built in `handleSensorData` (`enhancedData`). -/
structure EnhancedData where
  device_id : String
  timestamp : String
  ax : ℝ
  ay : ℝ
  az : ℝ
  gx : ℝ
  gy : ℝ
  gz : ℝ
  server_timestamp : Int
  magnitude : ℝ
  intensity : ℝ
  jma_intensity : ℝ
  pga : ℝ
  earthquake_type : String
  alert_level : String
  energy : ℝ
  impact_radius : ImpactRadius
  is_earthquake : Bool
  location : Option String

/-- One entry of the `deviceData` map.  The telemetry fields are `Option`
because the JavaScript object simply has no such property until a
`status_update` assigns it (possibly `undefined`). -/
structure DeviceInfo where
  location : Option String
  status : String
  connectedAt : Int
  lastSeen : Int
  history : List EnhancedData
  battery : Option ℝ
  signal_strength : Option ℝ
  free_heap : Option ℝ

/-- The alert object built by `handleEarthquakeAlert`.  The human readable
`message` string (which interpolates the magnitude) is not modelled. -/
structure AlertMsg where
  alert_level : String
  device_id : String
  magnitude : ℝ
  timestamp : Int
  location : String

/-- Outbound frame payloads (`type` field of the JSON messages). -/
inductive Payload where
  | error (message : String)
  | data_received (timestamp : Int) (magnitude : ℝ) (is_earthquake : Bool)
  | sensor_broadcast (record : EnhancedData)
  | device_registered (device_id : String)
  | device_status (device_id : Option String) (location : Option String) (status : String)
  | device_status_update (device_id : String)
      (battery signal_strength free_heap : Option ℝ)
  | earthquake_alert (alert : AlertMsg)
  | heartbeat_ack (timestamp : Int)
  | client_registered (client_type : String)
  | server_health (connections devices : ℕ)
  | devices_data (devices : List (String × DeviceInfo))
  | recent_data (records : List EnhancedData)

/-- One send of a payload to a list of target connection ids. -/
structure OutEvent where
  targets : List String
  payload : Payload

/-- The mutable module state of the server. -/
structure ServerState where
  clients : List ClientInfo
  deviceData : List (String × DeviceInfo)
  recentData : List EnhancedData
  dataCache : List EnhancedData
  packetCount : ℕ
  lastPacketReset : Int
  currentPps : ℕ

/-- Result of one message handler invocation: the next state, the frames
sent, and whether the durable snapshot file was (re)written. -/
structure StepResult where
  state : ServerState
  events : List OutEvent
  snapshotWritten : Bool

def MAX_HISTORY_SIZE : ℕ := 100
def MAX_RECENT_DATA_SIZE : ℕ := 100
def MAX_CACHE_SIZE : ℕ := 1000
def HEARTBEAT_INTERVAL : Int := 30000

/-! ## Map and list helpers -/

/-- `deviceData.get(d)` on the association list. -/
def lookupDevice (d : String) : List (String × DeviceInfo) → Option DeviceInfo
  | [] => none
  | e :: t => if e.1 = d then some e.2 else lookupDevice d t

/-- In-place mutation of the entry for key `d` (JavaScript mutates the
object returned by `Map.get`). -/
def updateDevice (devs : List (String × DeviceInfo)) (d : String)
    (f : DeviceInfo → DeviceInfo) : List (String × DeviceInfo) :=
  devs.map (fun e => if e.1 = d then (e.1, f e.2) else e)

/-- `clients.get(ws)` for the connection with id `cid`. -/
def getClientIn (cid : String) : List ClientInfo → Option ClientInfo
  | [] => none
  | c :: t => if c.id = cid then some c else getClientIn cid t

/-- In-place mutation of the client record with id `cid`. -/
def updateClient (cs : List ClientInfo) (cid : String)
    (f : ClientInfo → ClientInfo) : List ClientInfo :=
  cs.map (fun c => if c.id = cid then f c else c)

/-- `arr.push(x); if (arr.length > maxSize) arr.shift();` -/
def pushBounded {α : Type} (maxSize : ℕ) (l : List α) (x : α) : List α :=
  let l' := l ++ [x]
  if maxSize < l'.length then l'.tail else l'

/-- The dashboard predicate of `broadcastToDashboards`: an open connection
whose bound device id is the sentinel `DASHBOARD` or whose client type is
`monitor`. -/
def isDashboardConn (c : ClientInfo) : Bool :=
  c.isOpen && (decide (c.deviceId = some "DASHBOARD") || decide (c.clientType = "monitor"))

/-- `broadcastToDashboards(message)`: one payload delivered to every
dashboard connection. -/
def broadcastToDashboards (cs : List ClientInfo) (p : Payload) : OutEvent :=
  ⟨(cs.filter isDashboardConn).map (fun c => c.id), p⟩

/-- The alert broadcast in `handleEarthquakeAlert`: every open connection
regardless of role. -/
def broadcastToAll (cs : List ClientInfo) (p : Payload) : OutEvent :=
  ⟨(cs.filter (fun c => c.isOpen)).map (fun c => c.id), p⟩

/-- `ws.send(...)` to a single connection. -/
def sendTo (cid : String) (p : Payload) : OutEvent := ⟨[cid], p⟩

/-- A handler invocation that leaves the state untouched and sends nothing. -/
def noStep (s : ServerState) : StepResult := ⟨s, [], false⟩

/-- JavaScript `x || null` on an optional string. -/
def jsOrNull : Option String → Option String
  | some s => if s = "" then none else some s
  | none => none

/-! ## Message handlers (`websocket-server.js`) -/

/-- An inbound `sensor_data` message body; each axis field is `some v`
exactly when `parseFloat` of the raw field yields a (non-NaN) number. -/
structure SensorMsg where
  device_id : Option String
  timestamp : Option String
  ax : Option ℝ
  ay : Option ℝ
  az : Option ℝ
  gx : Option ℝ
  gy : Option ℝ
  gz : Option ℝ

/-- The `enhancedData` record built in `handleSensorData` from the parsed
axes, the owning device's location and the server time. -/
noncomputable def mkEnhanced (device_id timestamp : String) (ax ay az gx gy gz : ℝ)
    (deviceLocation : Option String) (now : Int) : EnhancedData :=
  let magnitude := calculateMagnitude ax ay az
  let intensity := calculateIntensity ax ay az 10
  let jmaResult := calculateJmaSeismicIntensity ax ay az 1
  { device_id := device_id
    timestamp := timestamp
    ax := ax, ay := ay, az := az, gx := gx, gy := gy, gz := gz
    server_timestamp := now
    magnitude := toFixedRound 4 magnitude
    intensity := toFixedRound 4 intensity
    jma_intensity := toFixedRound 4 jmaResult.intensity
    pga := toFixedRound 6 jmaResult.pga_raw
    earthquake_type := classifyEarthquake magnitude
    alert_level := (assessAlertLevel magnitude intensity).level
    energy := calculateEnergy magnitude
    impact_radius := calculateImpactRadius magnitude
    is_earthquake := detectEarthquake magnitude 3
    location := jsOrNull deviceLocation }

/-- The alert object of `handleEarthquakeAlert`; the level is the constant
string `warning` whatever the magnitude. -/
def mkAlert (data : EnhancedData) : AlertMsg :=
  { alert_level := "warning"
    device_id := data.device_id
    magnitude := data.magnitude
    timestamp := data.server_timestamp
    location := match data.location with
      | some s => if s = "" then "未知位置" else s
      | none => "未知位置" }

/-- `handleSensorData(ws, data, client)`.  `sender` is `some cid` for a
real connection and `none` for the synthetic REST test path. -/
noncomputable def handleSensorData (s : ServerState) (sender : Option String)
    (msg : SensorMsg) (now : Int) : StepResult :=
  match msg.device_id, msg.timestamp with
  | some did, some ts =>
    if did = "" ∨ ts = "" then noStep s
    else
      match lookupDevice did s.deviceData with
      | none => noStep s
      | some deviceInfo =>
        match msg.ax, msg.ay, msg.az, msg.gx, msg.gy, msg.gz with
        | some ax, some ay, some az, some gx, some gy, some gz =>
          let enhancedData := mkEnhanced did ts ax ay az gx gy gz deviceInfo.location now
          let newDevs := updateDevice s.deviceData did (fun info =>
            { info with lastSeen := now,
                        history := pushBounded MAX_HISTORY_SIZE info.history enhancedData })
          let newRecent := pushBounded MAX_RECENT_DATA_SIZE s.recentData enhancedData
          let newCache := pushBounded MAX_CACHE_SIZE s.dataCache enhancedData
          let snapshotWritten :=
            (newCache.length % 100 == 0) || enhancedData.is_earthquake
          let pc := s.packetCount + 1
          let statsReset := now - s.lastPacketReset ≥ 1000
          let replyEvents : List OutEvent :=
            match sender with
            | some cid =>
              [sendTo cid (Payload.data_received now enhancedData.magnitude
                enhancedData.is_earthquake)]
            | none => []
          let alertEvents : List OutEvent :=
            if enhancedData.is_earthquake then
              [broadcastToAll s.clients (Payload.earthquake_alert (mkAlert enhancedData))]
            else []
          { state :=
              { s with
                deviceData := newDevs
                recentData := newRecent
                dataCache := newCache
                packetCount := if statsReset then 0 else pc
                lastPacketReset := if statsReset then now else s.lastPacketReset
                currentPps := if statsReset then pc else s.currentPps }
            events := replyEvents
              ++ [broadcastToDashboards s.clients (Payload.sensor_broadcast enhancedData)]
              ++ alertEvents
            snapshotWritten := snapshotWritten }
        | _, _, _, _, _, _ => noStep s
  | _, _ => noStep s

/-- `handleDeviceRegister(ws, data, client)`. -/
def handleDeviceRegister (s : ServerState) (cid : String)
    (device_id location : Option String) (now : Int) : StepResult :=
  match device_id with
  | some did =>
    if did = "" then ⟨s, [sendTo cid (Payload.error "设备ID不能为空")], false⟩
    else
      let clients' := updateClient s.clients cid (fun c => { c with deviceId := some did })
      let devs' :=
        if (lookupDevice did s.deviceData).isSome then
          updateDevice s.deviceData did (fun info =>
            { info with status := "connected", lastSeen := now })
        else
          s.deviceData ++ [(did,
            { location := location, status := "connected", connectedAt := now,
              lastSeen := now, history := [], battery := none,
              signal_strength := none, free_heap := none })]
      ⟨{ s with clients := clients', deviceData := devs' },
        [sendTo cid (Payload.device_registered did),
         broadcastToDashboards clients' (Payload.device_status (some did) location "connected")],
        false⟩
  | none => ⟨s, [sendTo cid (Payload.error "设备ID不能为空")], false⟩

/-- `handleHeartbeat(ws, data, client)`. -/
def handleHeartbeat (s : ServerState) (cid : String) (device_id : Option String)
    (now : Int) : StepResult :=
  match getClientIn cid s.clients with
  | none => noStep s
  | some _ =>
    let clients' := updateClient s.clients cid (fun c => { c with lastHeartbeat := now })
    let devs' :=
      match device_id with
      | some d =>
        if d ≠ "" ∧ (lookupDevice d s.deviceData).isSome then
          updateDevice s.deviceData d (fun info =>
            { info with status := "connected", lastSeen := now })
        else s.deviceData
      | none => s.deviceData
    ⟨{ s with clients := clients', deviceData := devs' },
      [sendTo cid (Payload.heartbeat_ack now)], false⟩

/-- `handleStatusUpdate(ws, data, client)`. -/
def handleStatusUpdate (s : ServerState) (_cid : String) (device_id : Option String)
    (battery signal_strength free_heap : Option ℝ) (now : Int) : StepResult :=
  match device_id with
  | some d =>
    if d ≠ "" ∧ (lookupDevice d s.deviceData).isSome then
      let devs' := updateDevice s.deviceData d (fun info =>
        { info with battery := battery, signal_strength := signal_strength,
                    free_heap := free_heap, status := "connected", lastSeen := now })
      ⟨{ s with deviceData := devs' },
        [broadcastToDashboards s.clients
          (Payload.device_status_update d battery signal_strength free_heap)], false⟩
    else noStep s
  | none => noStep s

/-- `handleClientRegister(ws, data, client)`: a `monitor` registration
additionally receives the three catch-up payloads. -/
def handleClientRegister (s : ServerState) (cid : String)
    (client_type : Option String) : StepResult :=
  let ct := client_type.getD "generic"
  let clients' := updateClient s.clients cid (fun c => { c with clientType := ct })
  let extra : List OutEvent :=
    if ct = "monitor" then
      [sendTo cid (Payload.server_health s.clients.length s.deviceData.length),
       sendTo cid (Payload.devices_data s.deviceData),
       sendTo cid (Payload.recent_data s.recentData)]
    else []
  ⟨{ s with clients := clients' },
    sendTo cid (Payload.client_registered ct) :: extra, false⟩

/-- An inbound frame, keyed by its `type` field as in `handleMessage`. -/
inductive InMsg where
  | sensor_data (msg : SensorMsg)
  | device_register (device_id location : Option String)
  | heartbeat (device_id : Option String)
  | status_update (device_id : Option String)
      (battery signal_strength free_heap : Option ℝ)
  | client_register (client_type : Option String)
  | unknown (t : String)
  | untyped

/-- `handleMessage(ws, data)`: dispatch by message type; untyped and
unrecognized messages are logged and dropped. -/
noncomputable def handleMessage (s : ServerState) (cid : String) (msg : InMsg)
    (now : Int) : StepResult :=
  match msg with
  | .sensor_data m => handleSensorData s (some cid) m now
  | .device_register d l => handleDeviceRegister s cid d l now
  | .heartbeat d => handleHeartbeat s cid d now
  | .status_update d b sg fh => handleStatusUpdate s cid d b sg fh now
  | .client_register ct => handleClientRegister s cid ct
  | .unknown _ => noStep s
  | .untyped => noStep s

/-- The `ws.on('pong')` callback: refresh the connection's `lastHeartbeat`. -/
def handlePong (s : ServerState) (cid : String) (now : Int) : ServerState :=
  { s with clients := updateClient s.clients cid (fun c => { c with lastHeartbeat := now }) }

/-! ## Liveness sweep (the `setInterval` heartbeat check) -/

/-- Marking a device disconnected in the sweep (and in the close handler). -/
def markDisconnected (now : Int) (info : DeviceInfo) : DeviceInfo :=
  { info with status := "disconnected", lastSeen := now }

/-- The staleness test of the sweep:
`now - clientInfo.lastHeartbeat > HEARTBEAT_INTERVAL * 2`. -/
def staleB (now : Int) (c : ClientInfo) : Bool :=
  HEARTBEAT_INTERVAL * 2 < now - c.lastHeartbeat

/-- The body of the periodic heartbeat check: walk the tracked connections;
a stale one is terminated and deleted, and when it is bound to a known
device that device is marked disconnected and a `device_status` event is
broadcast to the dashboards still tracked at that moment. -/
def heartbeatSweepGo (now : Int) (kept : List ClientInfo) (l : List ClientInfo)
    (devs : List (String × DeviceInfo)) :
    List ClientInfo × List (String × DeviceInfo) × List OutEvent :=
  match l with
  | [] => (kept, devs, [])
  | c :: rest =>
    if staleB now c then
      match c.deviceId with
      | some d =>
        match lookupDevice d devs with
        | some _ =>
          let devs' := updateDevice devs d (markDisconnected now)
          let ev := broadcastToDashboards (kept ++ rest)
            (Payload.device_status (some d) none "disconnected")
          let r := heartbeatSweepGo now kept rest devs'
          (r.1, r.2.1, ev :: r.2.2)
        | none => heartbeatSweepGo now kept rest devs
      | none => heartbeatSweepGo now kept rest devs
    else
      heartbeatSweepGo now (kept ++ [c]) rest devs

/-- One run of the periodic heartbeat check over the whole registry. -/
def heartbeatSweep (s : ServerState) (now : Int) : ServerState × List OutEvent :=
  let r := heartbeatSweepGo now [] s.clients s.deviceData
  ({ s with clients := r.1, deviceData := r.2.1 }, r.2.2)

/-! ## Monitor dashboard alert buffer (`monitor-dashboard.js`) -/

/-- `MonitorDashboard.handleEarthquakeAlert`: `unshift` the new alert and
`pop` the oldest when more than 10 are held. -/
def dashboardHandleEarthquakeAlert (alerts : List AlertMsg) (alert : AlertMsg) :
    List AlertMsg :=
  let l := alert :: alerts
  if 10 < l.length then l.dropLast else l

/-! ## Invariants and validity predicates -/

/-- The bounded-buffer invariant of the spec: every history at most 100,
the recent buffer at most 100, the snapshot cache at most 1000. -/
def Invariant (s : ServerState) : Prop :=
  (∀ e ∈ s.deviceData, (e.2).history.length ≤ MAX_HISTORY_SIZE) ∧
  s.recentData.length ≤ MAX_RECENT_DATA_SIZE ∧
  s.dataCache.length ≤ MAX_CACHE_SIZE

/-- A `sensor_data` message passes validation: device id and timestamp
present and truthy, the device registered, and all six axes parsed. -/
def ValidSensor (devs : List (String × DeviceInfo)) (msg : SensorMsg) : Prop :=
  ∃ did ts, msg.device_id = some did ∧ msg.timestamp = some ts ∧
    did ≠ "" ∧ ts ≠ "" ∧ (lookupDevice did devs).isSome = true ∧
    msg.ax.isSome = true ∧ msg.ay.isSome = true ∧ msg.az.isSome = true ∧
    msg.gx.isSome = true ∧ msg.gy.isSome = true ∧ msg.gz.isSome = true

/-- Recognizer for earthquake alert frames among the emitted events. -/
def isAlertEvent (ev : OutEvent) : Bool :=
  match ev.payload with
  | Payload.earthquake_alert _ => true
  | _ => false

/-! ## Helper lemmas -/

theorem pushBounded_length_le {α : Type} (n : ℕ) (l : List α) (x : α)
    (h : l.length ≤ n) : (pushBounded n l x).length ≤ n := by
  simp only [pushBounded]
  split
  · next hlt =>
    simp only [List.length_tail, List.length_append, List.length_singleton] at *
    omega
  · next hge =>
    simp only [List.length_append, List.length_singleton] at *
    omega

theorem pushBounded_of_full {α : Type} (n : ℕ) (l : List α) (x : α)
    (hn : 0 < n) (h : l.length = n) : pushBounded n l x = l.tail ++ [x] := by
  have hl : l ≠ [] := by
    intro e
    subst e
    simp at h
    omega
  unfold pushBounded
  rw [if_pos (by simp only [List.length_append, List.length_singleton]; omega)]
  exact List.tail_append_singleton_of_ne_nil hl

theorem pushBounded_length_of_full {α : Type} (n : ℕ) (l : List α) (x : α)
    (hn : 0 < n) (h : l.length = n) : (pushBounded n l x).length = n := by
  rw [pushBounded_of_full n l x hn h]
  simp only [List.length_append, List.length_tail, List.length_singleton]
  omega

theorem pushBounded_length_of_lt {α : Type} (n : ℕ) (l : List α) (x : α)
    (h : l.length < n) : (pushBounded n l x).length = l.length + 1 := by
  unfold pushBounded
  rw [if_neg (by simp only [List.length_append, List.length_singleton]; omega)]
  simp

theorem lookupDevice_updateDevice (devs : List (String × DeviceInfo)) (d d' : String)
    (f : DeviceInfo → DeviceInfo) :
    lookupDevice d (updateDevice devs d' f) =
      if d = d' then (lookupDevice d devs).map f else lookupDevice d devs := by
  induction devs with
  | nil => simp [lookupDevice, updateDevice]
  | cons e t ih =>
    simp only [updateDevice, List.map_cons] at *
    by_cases h1 : e.1 = d'
    · by_cases h2 : e.1 = d
      · have h3 : d = d' := h2.symm.trans h1
        simp [lookupDevice, h1, h2, h3]
      · have h3 : d ≠ d' := fun e' => h2 (h1.trans e'.symm)
        simp [lookupDevice, h1, h2, h3, Ne.symm h3, ih]
    · by_cases h2 : e.1 = d
      · have h3 : d ≠ d' := fun e' => h1 (h2.trans e')
        simp [lookupDevice, h1, h2, h3]
      · simp [lookupDevice, h1, h2, ih]

theorem lookupDevice_append_right (devs : List (String × DeviceInfo)) (d : String)
    (v : DeviceInfo) (h : lookupDevice d devs = none) :
    lookupDevice d (devs ++ [(d, v)]) = some v := by
  induction devs with
  | nil => simp [lookupDevice]
  | cons e t ih =>
    simp only [lookupDevice, List.cons_append] at *
    by_cases h1 : e.1 = d
    · rw [if_pos h1] at h
      exact absurd h (by simp)
    · rw [if_neg h1] at h ⊢
      exact ih h

theorem getClientIn_updateClient (cs : List ClientInfo) (cid cid' : String)
    (f : ClientInfo → ClientInfo) (hf : ∀ c, (f c).id = c.id) :
    getClientIn cid (updateClient cs cid' f) =
      (getClientIn cid cs).map (fun c => if c.id = cid' then f c else c) := by
  induction cs with
  | nil => simp [getClientIn, updateClient]
  | cons c t ih =>
    simp only [updateClient, List.map_cons] at *
    by_cases h1 : c.id = cid'
    · by_cases h2 : c.id = cid
      · have h3 : cid' = cid := h1.symm.trans h2
        simp [getClientIn, hf c, h1, h2, h3]
      · have h3 : cid' ≠ cid := fun e' => h2 (h1.trans e')
        simp [getClientIn, hf c, h1, h2, h3, ih]
    · by_cases h2 : c.id = cid
      · have h3 : cid ≠ cid' := fun e' => h1 (h2.trans e')
        simp [getClientIn, h1, h2, h3]
      · simp [getClientIn, h1, h2, ih]

theorem getClientIn_id (cs : List ClientInfo) (cid : String) (c : ClientInfo)
    (h : getClientIn cid cs = some c) : c.id = cid := by
  induction cs with
  | nil => simp [getClientIn] at h
  | cons c0 t ih =>
    simp only [getClientIn] at h
    by_cases h1 : c0.id = cid
    · rw [if_pos h1] at h
      cases h
      exact h1
    · rw [if_neg h1] at h
      exact ih h

theorem detectEarthquake_eq_true {m t : ℝ} (h : t ≤ m) :
    detectEarthquake m t = true := by
  simp [detectEarthquake, ge_iff_le, h]

theorem detectEarthquake_eq_false {m t : ℝ} (h : m < t) :
    detectEarthquake m t = false := by
  simp [detectEarthquake, ge_iff_le]
  linarith

theorem toFixedRound_mono (digits : ℕ) {x y : ℝ} (h : x ≤ y) :
    toFixedRound digits x ≤ toFixedRound digits y := by
  unfold toFixedRound
  have h10 : (0 : ℝ) < 10 ^ digits := by positivity
  have hr : round (x * 10 ^ digits) ≤ round (y * 10 ^ digits) := by
    rw [round_eq, round_eq]
    exact Int.floor_le_floor (by nlinarith)
  exact (div_le_div_iff_of_pos_right h10).mpr (by exact_mod_cast hr)

theorem toFixedRound_intCast (digits : ℕ) (n : ℤ) :
    toFixedRound digits ((n : ℤ) : ℝ) = n := by
  unfold toFixedRound
  have h10 : (0 : ℝ) < 10 ^ digits := by positivity
  have : ((n : ℤ) : ℝ) * 10 ^ digits = (((n * 10 ^ digits : ℤ) : ℤ) : ℝ) := by
    push_cast
    ring
  rw [this, round_intCast]
  push_cast
  field_simp

/-- Full reduction of `handleSensorData` on a message that passes every
validation check, with `info` the registered device record. -/
theorem handleSensorData_accept (s : ServerState) (sender : Option String)
    (did ts : String) (ax ay az gx gy gz : ℝ) (now : Int) (info : DeviceInfo)
    (hdid : did ≠ "") (hts : ts ≠ "")
    (hreg : lookupDevice did s.deviceData = some info) :
    handleSensorData s sender
        ⟨some did, some ts, some ax, some ay, some az, some gx, some gy, some gz⟩ now =
      { state :=
          { s with
            deviceData := updateDevice s.deviceData did (fun i =>
              { i with lastSeen := now,
                       history := pushBounded MAX_HISTORY_SIZE i.history
                         (mkEnhanced did ts ax ay az gx gy gz info.location now) })
            recentData := pushBounded MAX_RECENT_DATA_SIZE s.recentData
              (mkEnhanced did ts ax ay az gx gy gz info.location now)
            dataCache := pushBounded MAX_CACHE_SIZE s.dataCache
              (mkEnhanced did ts ax ay az gx gy gz info.location now)
            packetCount :=
              if now - s.lastPacketReset ≥ 1000 then 0 else s.packetCount + 1
            lastPacketReset :=
              if now - s.lastPacketReset ≥ 1000 then now else s.lastPacketReset
            currentPps :=
              if now - s.lastPacketReset ≥ 1000 then s.packetCount + 1 else s.currentPps }
        events :=
          (match sender with
            | some cid =>
              [sendTo cid (Payload.data_received now
                (mkEnhanced did ts ax ay az gx gy gz info.location now).magnitude
                (mkEnhanced did ts ax ay az gx gy gz info.location now).is_earthquake)]
            | none => []) ++
          [broadcastToDashboards s.clients (Payload.sensor_broadcast
            (mkEnhanced did ts ax ay az gx gy gz info.location now))] ++
          (if (mkEnhanced did ts ax ay az gx gy gz info.location now).is_earthquake then
            [broadcastToAll s.clients (Payload.earthquake_alert
              (mkAlert (mkEnhanced did ts ax ay az gx gy gz info.location now)))]
          else [])
        snapshotWritten :=
          ((pushBounded MAX_CACHE_SIZE s.dataCache
              (mkEnhanced did ts ax ay az gx gy gz info.location now)).length % 100 == 0)
            || (mkEnhanced did ts ax ay az gx gy gz info.location now).is_earthquake } := by
  unfold handleSensorData
  simp only [hreg]
  rw [if_neg (by simp [hdid, hts])]

/-- `handleSensorData` on a message that fails any validation check is a
strict no-op: same state, no frame sent, no snapshot write. -/
theorem handleSensorData_invalid (s : ServerState) (sender : Option String)
    (msg : SensorMsg) (now : Int) (h : ¬ ValidSensor s.deviceData msg) :
    handleSensorData s sender msg now = noStep s := by
  obtain ⟨did?, ts?, ax?, ay?, az?, gx?, gy?, gz?⟩ := msg
  cases did? with
  | none => rfl
  | some did =>
    cases ts? with
    | none => rfl
    | some ts =>
      unfold handleSensorData
      dsimp only
      by_cases hbad : did = "" ∨ ts = ""
      · simp only [hbad, if_true]
      · rw [if_neg hbad]
        push_neg at hbad
        cases hl : lookupDevice did s.deviceData with
        | none => simp
        | some info =>
          simp only []
          cases ax? with
          | none => rfl
          | some ax =>
            cases ay? with
            | none => rfl
            | some ay =>
              cases az? with
              | none => rfl
              | some az =>
                cases gx? with
                | none => rfl
                | some gx =>
                  cases gy? with
                  | none => rfl
                  | some gy =>
                    cases gz? with
                    | none => rfl
                    | some gz =>
                      exact absurd
                        ⟨did, ts, rfl, rfl, hbad.1, hbad.2, by simp [hl],
                          rfl, rfl, rfl, rfl, rfl, rfl⟩ h

/-! ## Lemmas about the liveness sweep -/

theorem heartbeatSweepGo_clients (now : Int) (l : List ClientInfo) :
    ∀ (kept : List ClientInfo) (devs : List (String × DeviceInfo)),
    (heartbeatSweepGo now kept l devs).1 =
      kept ++ l.filter (fun c => !staleB now c) := by
  induction l with
  | nil => intro kept devs; simp [heartbeatSweepGo]
  | cons c rest ih =>
    intro kept devs
    by_cases hs : staleB now c
    · cases hd : c.deviceId with
      | none => simp [heartbeatSweepGo, hs, hd, List.filter_cons, ih]
      | some d =>
        cases hl : lookupDevice d devs with
        | none => simp [heartbeatSweepGo, hs, hd, hl, List.filter_cons, ih]
        | some info => simp [heartbeatSweepGo, hs, hd, hl, List.filter_cons, ih]
    · simp only [heartbeatSweepGo, if_neg hs]
      rw [ih]
      simp [List.filter_cons, hs]

theorem heartbeatSweepGo_payloads (now : Int) (l : List ClientInfo) :
    ∀ (kept : List ClientInfo) (devs : List (String × DeviceInfo)),
    (heartbeatSweepGo now kept l devs).2.2.map (fun ev => ev.payload) =
      l.filterMap (fun c =>
        if staleB now c then
          c.deviceId.bind (fun d => (lookupDevice d devs).map
            (fun _ => Payload.device_status (some d) none "disconnected"))
        else none) := by
  induction l with
  | nil => intro kept devs; simp [heartbeatSweepGo]
  | cons c rest ih =>
    intro kept devs
    by_cases hs : staleB now c
    · cases hd : c.deviceId with
      | none => simp [heartbeatSweepGo, hs, hd, List.filterMap_cons, ih]
      | some d =>
        cases hl : lookupDevice d devs with
        | none => simp [heartbeatSweepGo, hs, hd, hl, List.filterMap_cons, ih]
        | some info =>
          simp only [heartbeatSweepGo, hs, if_true, hd, hl, List.map_cons]
          rw [ih]
          rw [List.filterMap_cons]
          simp only [hs, if_true, hd, hl, Option.some_bind, Option.map_some']
          congr 1
          refine List.filterMap_congr (fun c' _ => ?_)
          by_cases hs' : staleB now c'
          · cases hd' : c'.deviceId with
            | none => simp [hs', hd']
            | some d' =>
              simp only [hs', if_true, hd', Option.some_bind]
              rw [lookupDevice_updateDevice]
              by_cases hdd : d' = d
              · rw [if_pos hdd]
                cases lookupDevice d' devs <;> simp
              · rw [if_neg hdd]
          · simp [hs']
    · simp only [heartbeatSweepGo, if_neg hs]
      rw [ih]
      simp [List.filterMap_cons, hs]

theorem markDisconnected_idem (now : Int) (info : DeviceInfo) :
    markDisconnected now (markDisconnected now info) = markDisconnected now info := by
  simp [markDisconnected]

theorem heartbeatSweepGo_device (now : Int) (d : String) (l : List ClientInfo) :
    ∀ (kept : List ClientInfo) (devs : List (String × DeviceInfo)) (info : DeviceInfo),
    lookupDevice d devs = some info →
    lookupDevice d (heartbeatSweepGo now kept l devs).2.1 =
      (if l.any (fun c => staleB now c && decide (c.deviceId = some d)) then
        some (markDisconnected now info)
      else some info) := by
  induction l with
  | nil => intro kept devs info h; simp [heartbeatSweepGo, h]
  | cons c rest ih =>
    intro kept devs info h
    by_cases hs : staleB now c
    · cases hd : c.deviceId with
      | none => simp [heartbeatSweepGo, hs, hd, List.any_cons, ih _ _ _ h]
      | some d' =>
        by_cases hdd : d' = d
        · subst hdd
          cases hl : lookupDevice d' devs with
          | none => rw [h] at hl; cases hl
          | some info0 =>
            rw [h] at hl
            cases hl
            simp only [heartbeatSweepGo, hs, if_true, hd, h]
            have hup : lookupDevice d' (updateDevice devs d' (markDisconnected now))
                = some (markDisconnected now info) := by
              rw [lookupDevice_updateDevice, if_pos rfl, h, Option.map_some']
            rw [ih _ _ _ hup]
            simp [List.any_cons, hs, hd, markDisconnected_idem]
        · cases hl : lookupDevice d' devs with
          | none =>
            simp only [heartbeatSweepGo, hs, if_true, hd, hl]
            rw [ih _ _ _ h]
            simp [List.any_cons, hs, hd, hdd]
          | some info' =>
            simp only [heartbeatSweepGo, hs, if_true, hd, hl]
            have hup : lookupDevice d (updateDevice devs d' (markDisconnected now))
                = some info := by
              rw [lookupDevice_updateDevice, if_neg (fun e' => hdd e'.symm), h]
            rw [ih _ _ _ hup]
            simp [List.any_cons, hs, hd, hdd]
    · simp only [heartbeatSweepGo, if_neg hs]
      rw [ih _ _ _ h]
      simp [List.any_cons, hs]

theorem heartbeatSweepGo_targets (now : Int) (P : ClientInfo → Prop) (l : List ClientInfo) :
    ∀ (kept : List ClientInfo) (devs : List (String × DeviceInfo)),
    (∀ x ∈ kept, P x) → (∀ x ∈ l, P x) →
    ∀ ev ∈ (heartbeatSweepGo now kept l devs).2.2, ∀ t ∈ ev.targets,
      ∃ c', P c' ∧ c'.id = t ∧ isDashboardConn c' = true := by
  induction l with
  | nil => intro kept devs _ _ ev hev; simp [heartbeatSweepGo] at hev
  | cons c rest ih =>
    intro kept devs hkept hl ev hev
    have hrest : ∀ x ∈ rest, P x := fun x hx => hl x (List.mem_cons_of_mem c hx)
    by_cases hs : staleB now c
    · cases hd : c.deviceId with
      | none =>
        simp only [heartbeatSweepGo, hs, if_true, hd] at hev
        exact ih kept devs hkept hrest ev hev
      | some d =>
        cases hlk : lookupDevice d devs with
        | none =>
          simp only [heartbeatSweepGo, hs, if_true, hd, hlk] at hev
          exact ih kept devs hkept hrest ev hev
        | some info =>
          simp only [heartbeatSweepGo, hs, if_true, hd, hlk, List.mem_cons] at hev
          cases hev with
          | inl hev =>
            subst hev
            intro t ht
            simp only [broadcastToDashboards, List.mem_map, List.mem_filter] at ht
            obtain ⟨c', ⟨hc'mem, hc'dash⟩, rfl⟩ := ht
            refine ⟨c', ?_, rfl, hc'dash⟩
            rcases List.mem_append.mp hc'mem with hmem | hmem
            · exact hkept c' hmem
            · exact hrest c' hmem
          | inr hev =>
            exact ih kept _ hkept hrest ev hev
    · simp only [heartbeatSweepGo, if_neg hs] at hev
      have hkept' : ∀ x ∈ kept ++ [c], P x := by
        intro x hx
        rcases List.mem_append.mp hx with hmem | hmem
        · exact hkept x hmem
        · simp only [List.mem_singleton] at hmem
          subst hmem
          exact hl x (List.mem_cons_self _ _)
      exact ih (kept ++ [c]) devs hkept' hrest ev hev

/-! ## Range lemmas for the enrichment formulas -/

theorem calculateMagnitude_nonneg (ax ay az : ℝ) : 0 ≤ calculateMagnitude ax ay az :=
  le_max_left 0 _

theorem calculateMagnitude_le_ten (ax ay az : ℝ) : calculateMagnitude ax ay az ≤ 10 :=
  max_le (by norm_num) (min_le_right _ 10)

theorem calculateIntensity_one_le (ax ay az distance : ℝ) :
    1 ≤ calculateIntensity ax ay az distance :=
  le_max_left 1 _

theorem calculateIntensity_le_twelve (ax ay az distance : ℝ) :
    calculateIntensity ax ay az distance ≤ 12 :=
  max_le (by norm_num) (min_le_left 12 _)

theorem toFixedRound_zero (digits : ℕ) : toFixedRound digits 0 = 0 := by
  have := toFixedRound_intCast digits 0
  simpa using this

theorem toFixedRound_ten (digits : ℕ) : toFixedRound digits 10 = 10 := by
  have := toFixedRound_intCast digits 10
  simpa using this

theorem toFixedRound_one (digits : ℕ) : toFixedRound digits 1 = 1 := by
  have := toFixedRound_intCast digits 1
  simpa using this

theorem toFixedRound_twelve (digits : ℕ) : toFixedRound digits 12 = 12 := by
  have := toFixedRound_intCast digits 12
  simpa using this

/-! ## Structural lemmas about the handlers -/

theorem handleSensorData_clients (s : ServerState) (sender : Option String)
    (msg : SensorMsg) (now : Int) :
    (handleSensorData s sender msg now).state.clients = s.clients := by
  obtain ⟨did?, ts?, ax?, ay?, az?, gx?, gy?, gz?⟩ := msg
  cases did? with
  | none => rfl
  | some did =>
    cases ts? with
    | none => rfl
    | some ts =>
      unfold handleSensorData
      dsimp only
      split
      · rfl
      · split
        · rfl
        · split <;> rfl

theorem handleDeviceRegister_snapshot (s : ServerState) (cid : String)
    (device_id location : Option String) (now : Int) :
    (handleDeviceRegister s cid device_id location now).snapshotWritten = false := by
  unfold handleDeviceRegister
  cases device_id with
  | none => rfl
  | some did =>
    dsimp only
    split <;> rfl

theorem handleHeartbeat_snapshot (s : ServerState) (cid : String)
    (device_id : Option String) (now : Int) :
    (handleHeartbeat s cid device_id now).snapshotWritten = false := by
  unfold handleHeartbeat
  split <;> rfl

theorem handleStatusUpdate_snapshot (s : ServerState) (cid : String)
    (device_id : Option String) (battery signal_strength free_heap : Option ℝ)
    (now : Int) :
    (handleStatusUpdate s cid device_id battery signal_strength free_heap now).snapshotWritten
      = false := by
  unfold handleStatusUpdate
  cases device_id with
  | none => rfl
  | some d =>
    dsimp only
    split <;> rfl

theorem updateDevice_history_bound (devs : List (String × DeviceInfo)) (d : String)
    (f : DeviceInfo → DeviceInfo)
    (h : ∀ e ∈ devs, (e.2).history.length ≤ MAX_HISTORY_SIZE)
    (hf : ∀ i, i.history.length ≤ MAX_HISTORY_SIZE →
      (f i).history.length ≤ MAX_HISTORY_SIZE) :
    ∀ e ∈ updateDevice devs d f, (e.2).history.length ≤ MAX_HISTORY_SIZE := by
  intro e he
  simp only [updateDevice, List.mem_map] at he
  obtain ⟨e0, he0, rfl⟩ := he
  by_cases h1 : e0.1 = d
  · rw [if_pos h1]
    exact hf _ (h e0 he0)
  · rw [if_neg h1]
    exact h e0 he0

theorem Invariant_handleSensorData (s : ServerState) (sender : Option String)
    (msg : SensorMsg) (now : Int) (h : Invariant s) :
    Invariant (handleSensorData s sender msg now).state := by
  by_cases hv : ValidSensor s.deviceData msg
  · obtain ⟨did, ts, h1, h2, h3, h4, h5, hax, hay, haz, hgx, hgy, hgz⟩ := hv
    obtain ⟨info, hinfo⟩ := Option.isSome_iff_exists.mp h5
    obtain ⟨ax, hax'⟩ := Option.isSome_iff_exists.mp hax
    obtain ⟨ay, hay'⟩ := Option.isSome_iff_exists.mp hay
    obtain ⟨az, haz'⟩ := Option.isSome_iff_exists.mp haz
    obtain ⟨gx, hgx'⟩ := Option.isSome_iff_exists.mp hgx
    obtain ⟨gy, hgy'⟩ := Option.isSome_iff_exists.mp hgy
    obtain ⟨gz, hgz'⟩ := Option.isSome_iff_exists.mp hgz
    have hmsg : msg = ⟨some did, some ts, some ax, some ay, some az,
        some gx, some gy, some gz⟩ := by
      obtain ⟨f1, f2, f3, f4, f5, f6, f7, f8⟩ := msg
      simp_all
    rw [hmsg, handleSensorData_accept s sender did ts ax ay az gx gy gz now info h3 h4 hinfo]
    obtain ⟨hh, hr, hc⟩ := h
    unfold Invariant
    refine ⟨?_, ?_, ?_⟩
    · dsimp only
      refine updateDevice_history_bound _ _ _ hh ?_
      intro i hi
      dsimp only
      exact pushBounded_length_le _ _ _ hi
    · exact pushBounded_length_le _ _ _ hr
    · exact pushBounded_length_le _ _ _ hc
  · rw [handleSensorData_invalid s sender msg now hv]
    exact h

theorem Invariant_handleDeviceRegister (s : ServerState) (cid : String)
    (device_id location : Option String) (now : Int) (h : Invariant s) :
    Invariant (handleDeviceRegister s cid device_id location now).state := by
  unfold handleDeviceRegister
  cases device_id with
  | none => exact h
  | some did =>
    dsimp only
    split
    · exact h
    · obtain ⟨hh, hr, hc⟩ := h
      refine ⟨?_, hr, hc⟩
      dsimp only
      split
      · refine updateDevice_history_bound _ _ _ hh ?_
        intro i hi
        exact hi
      · intro e he
        rcases List.mem_append.mp he with hm | hm
        · exact hh e hm
        · simp only [List.mem_singleton] at hm
          subst hm
          simp [MAX_HISTORY_SIZE]

theorem Invariant_handleHeartbeat (s : ServerState) (cid : String)
    (device_id : Option String) (now : Int) (h : Invariant s) :
    Invariant (handleHeartbeat s cid device_id now).state := by
  unfold handleHeartbeat
  split
  · exact h
  · obtain ⟨hh, hr, hc⟩ := h
    refine ⟨?_, hr, hc⟩
    dsimp only
    cases device_id with
    | none => exact hh
    | some d =>
      dsimp only
      split
      · refine updateDevice_history_bound _ _ _ hh ?_
        intro i hi
        exact hi
      · exact hh

theorem Invariant_handleStatusUpdate (s : ServerState) (cid : String)
    (device_id : Option String) (battery signal_strength free_heap : Option ℝ)
    (now : Int) (h : Invariant s) :
    Invariant (handleStatusUpdate s cid device_id battery signal_strength free_heap now).state := by
  unfold handleStatusUpdate
  cases device_id with
  | none => exact h
  | some d =>
    dsimp only
    split
    · obtain ⟨hh, hr, hc⟩ := h
      refine ⟨?_, hr, hc⟩
      dsimp only
      refine updateDevice_history_bound _ _ _ hh ?_
      intro i hi
      exact hi
    · exact h

theorem Invariant_handleMessage (s : ServerState) (cid : String) (msg : InMsg)
    (now : Int) (h : Invariant s) :
    Invariant (handleMessage s cid msg now).state := by
  cases msg with
  | sensor_data m => exact Invariant_handleSensorData s (some cid) m now h
  | device_register d l => exact Invariant_handleDeviceRegister s cid d l now h
  | heartbeat d => exact Invariant_handleHeartbeat s cid d now h
  | status_update d b sg fh => exact Invariant_handleStatusUpdate s cid d b sg fh now h
  | client_register ct => exact h
  | unknown t => exact h
  | untyped => exact h

/-- A fixed record used to build concrete witness states. -/
def dummyRecord : EnhancedData :=
  ⟨"", "", 0, 0, 0, 0, 0, 0, 0, 0, 0, 0, 0, "", "", 0, ⟨0, 0, 0, 0⟩, false, none⟩

/-- The initial module state of the server at startup (empty maps and
buffers, counters at zero). -/
def initialState : ServerState := ⟨[], [], [], [], 0, 0, 0⟩

/-! ## Claims -/

/-- C1: after every operation handled by `handleMessage` (sensor data
ingestion, device registration, heartbeat, status update), every device
history has length at most 100, the global `recentData` buffer has length
at most 100 (the same constant `MAX_HISTORY_SIZE = MAX_RECENT_DATA_SIZE = 100`),
and the snapshot cache has length at most 1000; and when an append would
exceed a bound the buffers drop their oldest (front) element first. -/
theorem claim_C1_bounded_buffers (s : ServerState) (cid : String) (msg : InMsg)
    (now : Int) (l1 l2 : List EnhancedData) (x1 x2 : EnhancedData)
    (hInv : Invariant s) (h1 : l1.length = MAX_HISTORY_SIZE)
    (h2 : l2.length = MAX_CACHE_SIZE) :
    Invariant (handleMessage s cid msg now).state ∧
    pushBounded MAX_HISTORY_SIZE l1 x1 = l1.tail ++ [x1] ∧
    pushBounded MAX_CACHE_SIZE l2 x2 = l2.tail ++ [x2] :=
  ⟨Invariant_handleMessage s cid msg now hInv,
   pushBounded_of_full _ _ _ (by norm_num [MAX_HISTORY_SIZE]) h1,
   pushBounded_of_full _ _ _ (by norm_num [MAX_CACHE_SIZE]) h2⟩

/-- Witness for C1 at the empty start state, a heartbeat message and full
buffers of 100 and 1000 records. -/
theorem claim_C1_witness :
    Invariant initialState ∧
    (List.replicate 100 dummyRecord).length = MAX_HISTORY_SIZE ∧
    (List.replicate 1000 dummyRecord).length = MAX_CACHE_SIZE ∧
    (Invariant (handleMessage initialState "c1" (InMsg.heartbeat none) 0).state ∧
     pushBounded MAX_HISTORY_SIZE (List.replicate 100 dummyRecord) dummyRecord
       = (List.replicate 100 dummyRecord).tail ++ [dummyRecord] ∧
     pushBounded MAX_CACHE_SIZE (List.replicate 1000 dummyRecord) dummyRecord
       = (List.replicate 1000 dummyRecord).tail ++ [dummyRecord]) :=
  ⟨by simp [Invariant, initialState],
   by rw [List.length_replicate]; rfl,
   by rw [List.length_replicate]; rfl,
   claim_C1_bounded_buffers initialState "c1" (InMsg.heartbeat none) 0
     (List.replicate 100 dummyRecord) (List.replicate 1000 dummyRecord)
     dummyRecord dummyRecord
     (by simp [Invariant, initialState])
     (by rw [List.length_replicate]; rfl)
     (by rw [List.length_replicate]; rfl)⟩

/-- C3: a `sensor_data` message that fails validation (missing or empty
device id or timestamp, an axis that does not parse to a number, or an
unregistered device id) is a strict no-op: the state is unchanged, no
frame is sent (in particular no broadcast), and no snapshot is written. -/
theorem claim_C3_invalid_noop (s : ServerState) (sender : Option String)
    (msg : SensorMsg) (now : Int) (h : ¬ ValidSensor s.deviceData msg) :
    handleSensorData s sender msg now = noStep s ∧
    (handleSensorData s sender msg now).state = s ∧
    (handleSensorData s sender msg now).events = [] ∧
    (handleSensorData s sender msg now).snapshotWritten = false := by
  have e := handleSensorData_invalid s sender msg now h
  exact ⟨e, by rw [e]; rfl, by rw [e]; rfl, by rw [e]; rfl⟩

/-- Witness for C3: sensor data for a device id that was never registered
is discarded without touching anything. -/
theorem claim_C3_witness :
    ¬ ValidSensor initialState.deviceData
        ⟨some "D1", some "t0", some 0, some 0, some 0, some 0, some 0, some 0⟩ ∧
    handleSensorData initialState none
        ⟨some "D1", some "t0", some 0, some 0, some 0, some 0, some 0, some 0⟩ 5
      = noStep initialState ∧
    (handleSensorData initialState none
        ⟨some "D1", some "t0", some 0, some 0, some 0, some 0, some 0, some 0⟩ 5).state
      = initialState ∧
    (handleSensorData initialState none
        ⟨some "D1", some "t0", some 0, some 0, some 0, some 0, some 0, some 0⟩ 5).events
      = [] ∧
    (handleSensorData initialState none
        ⟨some "D1", some "t0", some 0, some 0, some 0, some 0, some 0, some 0⟩ 5).snapshotWritten
      = false := by
  have hinv : ¬ ValidSensor initialState.deviceData
      ⟨some "D1", some "t0", some 0, some 0, some 0, some 0, some 0, some 0⟩ := by
    simp [ValidSensor, initialState, lookupDevice]
  have := claim_C3_invalid_noop initialState none
    ⟨some "D1", some "t0", some 0, some 0, some 0, some 0, some 0, some 0⟩ 5 hinv
  exact ⟨hinv, this.1, this.2.1, this.2.2.1, this.2.2.2⟩

/-- C2 (amended): the enriched record's magnitude is the formula
`log10(sqrt(ax^2+ay^2+az^2)+1)*2` clamped to 0..10 and then rounded to 4
decimal places by `toFixed(4)`; the bounds `0 ≤ magnitude ≤ 10` and
`1 ≤ intensity ≤ 12` hold of the stored record fields. -/
theorem claim_C2_magnitude_bounds (did ts : String) (ax ay az gx gy gz : ℝ)
    (loc : Option String) (now : Int) :
    (mkEnhanced did ts ax ay az gx gy gz loc now).magnitude
      = toFixedRound 4 (calculateMagnitude ax ay az) ∧
    calculateMagnitude ax ay az
      = max 0 (min (Real.logb 10 (Real.sqrt (ax ^ 2 + ay ^ 2 + az ^ 2) + 1) * 2) 10) ∧
    0 ≤ (mkEnhanced did ts ax ay az gx gy gz loc now).magnitude ∧
    (mkEnhanced did ts ax ay az gx gy gz loc now).magnitude ≤ 10 ∧
    1 ≤ (mkEnhanced did ts ax ay az gx gy gz loc now).intensity ∧
    (mkEnhanced did ts ax ay az gx gy gz loc now).intensity ≤ 12 := by
  refine ⟨rfl, rfl, ?_, ?_, ?_, ?_⟩
  · show 0 ≤ toFixedRound 4 (calculateMagnitude ax ay az)
    have h0 := toFixedRound_mono 4 (calculateMagnitude_nonneg ax ay az)
    rwa [toFixedRound_zero] at h0
  · show toFixedRound 4 (calculateMagnitude ax ay az) ≤ 10
    have h0 := toFixedRound_mono 4 (calculateMagnitude_le_ten ax ay az)
    rwa [toFixedRound_ten] at h0
  · show 1 ≤ toFixedRound 4 (calculateIntensity ax ay az 10)
    have h0 := toFixedRound_mono 4 (calculateIntensity_one_le ax ay az 10)
    rwa [toFixedRound_one] at h0
  · show toFixedRound 4 (calculateIntensity ax ay az 10) ≤ 12
    have h0 := toFixedRound_mono 4 (calculateIntensity_le_twelve ax ay az 10)
    rwa [toFixedRound_twelve] at h0

/-- Counterexample to C2 as stated: at axes `(10^(1/3) - 1, 0, 0)` the
formula value is `2/3`, but the record stores the 4-decimal rounding
`0.6667`, so the stored magnitude does not equal the formula value. -/
theorem claim_C2_cex :
    (mkEnhanced "D1" "t" ((10 : ℝ) ^ ((1 : ℝ) / 3) - 1) 0 0 0 0 0 none 0).magnitude ≠
      max 0 (min (Real.logb 10 (Real.sqrt
        (((10 : ℝ) ^ ((1 : ℝ) / 3) - 1) ^ 2 + (0 : ℝ) ^ 2 + (0 : ℝ) ^ 2) + 1) * 2) 10) := by
  have ha1 : 1 < (10 : ℝ) ^ ((1 : ℝ) / 3) :=
    (Real.one_lt_rpow_iff_of_pos (by norm_num)).mpr (Or.inl ⟨by norm_num, by norm_num⟩)
  have hsq : Real.sqrt (((10 : ℝ) ^ ((1 : ℝ) / 3) - 1) ^ 2 + (0 : ℝ) ^ 2 + (0 : ℝ) ^ 2)
      = (10 : ℝ) ^ ((1 : ℝ) / 3) - 1 := by
    rw [show ((10 : ℝ) ^ ((1 : ℝ) / 3) - 1) ^ 2 + (0 : ℝ) ^ 2 + (0 : ℝ) ^ 2
        = ((10 : ℝ) ^ ((1 : ℝ) / 3) - 1) ^ 2 by ring]
    exact Real.sqrt_sq (by linarith)
  have hlogb : Real.logb 10 ((10 : ℝ) ^ ((1 : ℝ) / 3)) = 1 / 3 :=
    Real.logb_rpow (by norm_num) (by norm_num)
  have hval : max 0 (min (Real.logb 10 (Real.sqrt
      (((10 : ℝ) ^ ((1 : ℝ) / 3) - 1) ^ 2 + (0 : ℝ) ^ 2 + (0 : ℝ) ^ 2) + 1) * 2) 10)
      = 2 / 3 := by
    rw [hsq, show (10 : ℝ) ^ ((1 : ℝ) / 3) - 1 + 1 = (10 : ℝ) ^ ((1 : ℝ) / 3) by ring,
      hlogb, show (1 : ℝ) / 3 * 2 = 2 / 3 by ring]
    rw [min_eq_left (by norm_num), max_eq_right (by norm_num)]
  have hmag : calculateMagnitude ((10 : ℝ) ^ ((1 : ℝ) / 3) - 1) 0 0 = 2 / 3 := hval
  have hlhs : (mkEnhanced "D1" "t" ((10 : ℝ) ^ ((1 : ℝ) / 3) - 1) 0 0 0 0 0 none 0).magnitude
      = toFixedRound 4 ((2 : ℝ) / 3) := by
    show toFixedRound 4 (calculateMagnitude ((10 : ℝ) ^ ((1 : ℝ) / 3) - 1) 0 0) = _
    rw [hmag]
  have hround : toFixedRound 4 ((2 : ℝ) / 3) = 6667 / 10000 := by
    unfold toFixedRound
    rw [show (2 : ℝ) / 3 * 10 ^ (4 : ℕ) = 20000 / 3 by norm_num]
    have hr : round ((20000 : ℝ) / 3) = 6667 := by
      rw [round_eq, show (20000 : ℝ) / 3 + 1 / 2 = 40003 / 6 by norm_num]
      exact Int.floor_eq_iff.mpr (by norm_num)
    rw [hr]
    norm_num
  rw [hlhs, hval, hround]
  norm_num

/-- Applying a permutation of the three axes together with a sign flip of
any subset of them, expressed pointwise. -/
def axisTransform (ax ay az : ℝ) (σ : Equiv.Perm (Fin 3)) (sg : Fin 3 → Bool)
    (i : Fin 3) : ℝ :=
  (if sg i then -1 else 1) * ![ax, ay, az] (σ i)

theorem axisTransform_normSq (ax ay az : ℝ) (σ : Equiv.Perm (Fin 3))
    (sg : Fin 3 → Bool) :
    axisTransform ax ay az σ sg 0 ^ 2 + axisTransform ax ay az σ sg 1 ^ 2
      + axisTransform ax ay az σ sg 2 ^ 2 = ax ^ 2 + ay ^ 2 + az ^ 2 := by
  have h1 : ∀ i, axisTransform ax ay az σ sg i ^ 2 = (![ax, ay, az] (σ i)) ^ 2 := by
    intro i
    unfold axisTransform
    cases hsg : sg i <;> simp [hsg]
  calc axisTransform ax ay az σ sg 0 ^ 2 + axisTransform ax ay az σ sg 1 ^ 2
      + axisTransform ax ay az σ sg 2 ^ 2
      = ∑ i : Fin 3, axisTransform ax ay az σ sg i ^ 2 := by
        rw [Fin.sum_univ_three]
    _ = ∑ i : Fin 3, (![ax, ay, az] (σ i)) ^ 2 :=
        Finset.sum_congr rfl (fun i _ => h1 i)
    _ = ∑ i : Fin 3, (![ax, ay, az] i) ^ 2 :=
        Equiv.sum_comp σ (fun i => (![ax, ay, az] i) ^ 2)
    _ = ax ^ 2 + ay ^ 2 + az ^ 2 := by
        rw [Fin.sum_univ_three]
        simp

/-- C10: the enrichment formulas depend on the axes only through the
Euclidean norm, hence are invariant under any permutation of the three
axis arguments combined with negating any subset of them: the computed
magnitude, the intensity, the JMA intensity and the PGA are unchanged. -/
theorem claim_C10_axis_symmetry (ax ay az distance correctionFactor : ℝ)
    (σ : Equiv.Perm (Fin 3)) (sg : Fin 3 → Bool) :
    calculateMagnitude (axisTransform ax ay az σ sg 0) (axisTransform ax ay az σ sg 1)
        (axisTransform ax ay az σ sg 2) = calculateMagnitude ax ay az ∧
    calculateIntensity (axisTransform ax ay az σ sg 0) (axisTransform ax ay az σ sg 1)
        (axisTransform ax ay az σ sg 2) distance = calculateIntensity ax ay az distance ∧
    (calculateJmaSeismicIntensity (axisTransform ax ay az σ sg 0)
        (axisTransform ax ay az σ sg 1) (axisTransform ax ay az σ sg 2)
        correctionFactor).intensity
      = (calculateJmaSeismicIntensity ax ay az correctionFactor).intensity ∧
    (calculateJmaSeismicIntensity (axisTransform ax ay az σ sg 0)
        (axisTransform ax ay az σ sg 1) (axisTransform ax ay az σ sg 2)
        correctionFactor).pga
      = (calculateJmaSeismicIntensity ax ay az correctionFactor).pga ∧
    (calculateJmaSeismicIntensity (axisTransform ax ay az σ sg 0)
        (axisTransform ax ay az σ sg 1) (axisTransform ax ay az σ sg 2)
        correctionFactor).pga_raw
      = (calculateJmaSeismicIntensity ax ay az correctionFactor).pga_raw := by
  have key := axisTransform_normSq ax ay az σ sg
  refine ⟨?_, ?_, ?_, ?_, ?_⟩ <;>
    simp only [calculateMagnitude, calculateIntensity, calculateJmaSeismicIntensity, key]

/-- A concrete device record used in witness states. -/
def infoA : DeviceInfo := ⟨some "A", "connected", 0, 0, [], none, none, none⟩

/-- A concrete state holding one registered device `D7` at location `A`. -/
def stateC6 : ServerState := ⟨[], [("D7", infoA)], [], [], 0, 0, 0⟩

/-- C6 (amended): re-registering a known device id preserves its history
(no reset) and sets its status to connected and refreshes `lastSeen`, but
the stored location is left unchanged — the location carried by the
re-registration message is not written to the directory entry. -/
theorem claim_C6_reregister (s : ServerState) (cid did : String) (loc : Option String)
    (now : Int) (info : DeviceInfo)
    (hdid : did ≠ "") (hreg : lookupDevice did s.deviceData = some info) :
    lookupDevice did (handleDeviceRegister s cid (some did) loc now).state.deviceData
      = some { info with status := "connected", lastSeen := now } ∧
    ({ info with status := "connected", lastSeen := now } : DeviceInfo).history
      = info.history ∧
    ({ info with status := "connected", lastSeen := now } : DeviceInfo).location
      = info.location := by
  refine ⟨?_, rfl, rfl⟩
  unfold handleDeviceRegister
  dsimp only
  rw [if_neg hdid]
  dsimp only
  rw [if_pos (by rw [hreg]; rfl)]
  rw [lookupDevice_updateDevice, if_pos rfl, hreg]
  rfl

/-- Witness for C6 at the concrete one-device state. -/
theorem claim_C6_witness :
    ("D7" : String) ≠ "" ∧
    lookupDevice "D7" stateC6.deviceData = some infoA ∧
    (lookupDevice "D7" (handleDeviceRegister stateC6 "c1" (some "D7") (some "B") 5).state.deviceData
        = some { infoA with status := "connected", lastSeen := 5 } ∧
     ({ infoA with status := "connected", lastSeen := 5 } : DeviceInfo).history
        = infoA.history ∧
     ({ infoA with status := "connected", lastSeen := 5 } : DeviceInfo).location
        = infoA.location) :=
  ⟨by decide, rfl,
   claim_C6_reregister stateC6 "c1" "D7" (some "B") 5 infoA (by decide) rfl⟩

/-- Counterexample to C6 as stated: re-registering `D7` with location `B`
leaves the stored location at `A`; the location is not refreshed. -/
theorem claim_C6_cex :
    (lookupDevice "D7"
        (handleDeviceRegister stateC6 "c1" (some "D7") (some "B") 5).state.deviceData).map
        (fun i => i.location) = some (some "A") ∧
    (some (some "A") : Option (Option String)) ≠ some (some "B") := by
  constructor
  · rfl
  · decide

/-- C9: a `status_update` for a registered device overwrites the three
telemetry fields with exactly the transmitted values (absent fields become
`none`), marks the device connected, refreshes `lastSeen`, and broadcasts
one `device_status_update` to the dashboards; for an absent or unknown
device id it is a no-op. -/
theorem claim_C9_status_update (s : ServerState) (cid d : String)
    (battery signal_strength free_heap : Option ℝ) (now : Int) (info : DeviceInfo)
    (hd : d ≠ "") (hreg : lookupDevice d s.deviceData = some info) :
    lookupDevice d (handleStatusUpdate s cid (some d) battery signal_strength
        free_heap now).state.deviceData
      = some { info with battery := battery, signal_strength := signal_strength,
                         free_heap := free_heap, status := "connected", lastSeen := now } ∧
    (handleStatusUpdate s cid (some d) battery signal_strength free_heap now).events
      = [broadcastToDashboards s.clients
          (Payload.device_status_update d battery signal_strength free_heap)] ∧
    (∀ b2 s2 f2 now2, handleStatusUpdate s cid none b2 s2 f2 now2 = noStep s) ∧
    (∀ d2 b2 s2 f2 now2, lookupDevice d2 s.deviceData = none →
      handleStatusUpdate s cid (some d2) b2 s2 f2 now2 = noStep s) := by
  have hcond : d ≠ "" ∧ (lookupDevice d s.deviceData).isSome = true :=
    ⟨hd, by rw [hreg]; rfl⟩
  refine ⟨?_, ?_, ?_, ?_⟩
  · unfold handleStatusUpdate
    dsimp only
    rw [if_pos hcond]
    rw [lookupDevice_updateDevice, if_pos rfl, hreg]
    rfl
  · unfold handleStatusUpdate
    dsimp only
    rw [if_pos hcond]
  · intro b2 s2 f2 now2
    rfl
  · intro d2 b2 s2 f2 now2 h
    unfold handleStatusUpdate
    dsimp only
    rw [if_neg (by simp [h])]

/-- Witness for C9 at the concrete one-device state. -/
theorem claim_C9_witness :
    ("D7" : String) ≠ "" ∧
    lookupDevice "D7" stateC6.deviceData = some infoA ∧
    (lookupDevice "D7" (handleStatusUpdate stateC6 "c1" (some "D7") (some 80) none
          (some 4096) 9).state.deviceData
        = some { infoA with battery := some 80, signal_strength := none,
                            free_heap := some 4096, status := "connected", lastSeen := 9 } ∧
     (handleStatusUpdate stateC6 "c1" (some "D7") (some 80) none (some 4096) 9).events
        = [broadcastToDashboards stateC6.clients
            (Payload.device_status_update "D7" (some 80) none (some 4096))] ∧
     (∀ b2 s2 f2 now2, handleStatusUpdate stateC6 "c1" none b2 s2 f2 now2 = noStep stateC6) ∧
     (∀ d2 b2 s2 f2 now2, lookupDevice d2 stateC6.deviceData = none →
       handleStatusUpdate stateC6 "c1" (some d2) b2 s2 f2 now2 = noStep stateC6)) :=
  ⟨by decide, rfl,
   claim_C9_status_update stateC6 "c1" "D7" (some 80) none (some 4096) 9 infoA
     (by decide) rfl⟩

theorem map_lastHeartbeat_updateClient (cs : List ClientInfo) (cid : String)
    (f : ClientInfo → ClientInfo) (hfid : ∀ c, (f c).id = c.id)
    (hfl : ∀ c, (f c).lastHeartbeat = c.lastHeartbeat) :
    (getClientIn cid (updateClient cs cid f)).map (fun c => c.lastHeartbeat)
      = (getClientIn cid cs).map (fun c => c.lastHeartbeat) := by
  rw [getClientIn_updateClient cs cid cid f hfid]
  cases getClientIn cid cs with
  | none => rfl
  | some c =>
    simp only [Option.map_some']
    by_cases h : c.id = cid
    · simp [h, hfl c]
    · simp [h]

theorem map_lastHeartbeat_updateClient_set (cs : List ClientInfo) (cid : String)
    (now : Int) :
    (getClientIn cid (updateClient cs cid
        (fun c => { c with lastHeartbeat := now }))).map (fun c => c.lastHeartbeat)
      = (getClientIn cid cs).map (fun _ => now) := by
  rw [getClientIn_updateClient cs cid cid
    (fun c => { c with lastHeartbeat := now }) (fun c => rfl)]
  cases hc : getClientIn cid cs with
  | none => rfl
  | some c =>
    have hid := getClientIn_id cs cid c hc
    simp [hid]

/-- C8 (amended): the tracked connection's `lastHeartbeat` is refreshed by
a successful liveness probe response (`pong`) and by a `heartbeat`-typed
message; no other inbound message type touches it.  In particular it is
not updated on every inbound message. -/
theorem claim_C8_lastseen (s : ServerState) (cid : String) (msg : InMsg) (now : Int) :
    ((getClientIn cid (handleMessage s cid msg now).state.clients).map
        (fun c => c.lastHeartbeat)
      = (getClientIn cid s.clients).map (fun c =>
          match msg with
          | InMsg.heartbeat _ => now
          | _ => c.lastHeartbeat)) ∧
    ((getClientIn cid (handlePong s cid now).clients).map (fun c => c.lastHeartbeat)
      = (getClientIn cid s.clients).map (fun _ => now)) := by
  constructor
  · cases msg with
    | sensor_data m =>
      show (getClientIn cid (handleSensorData s (some cid) m now).state.clients).map _ = _
      rw [handleSensorData_clients]
    | device_register d l =>
      show (getClientIn cid (handleDeviceRegister s cid d l now).state.clients).map _ = _
      unfold handleDeviceRegister
      cases d with
      | none => rfl
      | some did =>
        dsimp only
        split
        · rfl
        · exact map_lastHeartbeat_updateClient s.clients cid _
            (fun c => rfl) (fun c => rfl)
    | heartbeat d =>
      show (getClientIn cid (handleHeartbeat s cid d now).state.clients).map _ = _
      unfold handleHeartbeat
      cases hc : getClientIn cid s.clients with
      | none =>
        dsimp only [noStep]
        rw [hc]
        rfl
      | some c =>
        dsimp only
        rw [map_lastHeartbeat_updateClient_set, hc]
    | status_update d b sg fh =>
      show (getClientIn cid (handleStatusUpdate s cid d b sg fh now).state.clients).map _ = _
      unfold handleStatusUpdate
      cases d with
      | none => rfl
      | some d2 =>
        dsimp only
        split
        · rfl
        · rfl
    | client_register ct =>
      show (getClientIn cid (handleClientRegister s cid ct).state.clients).map _ = _
      unfold handleClientRegister
      dsimp only
      exact map_lastHeartbeat_updateClient s.clients cid _
        (fun c => rfl) (fun c => rfl)
    | unknown t => rfl
    | untyped => rfl
  · unfold handlePong
    dsimp only
    exact map_lastHeartbeat_updateClient_set s.clients cid now

/-- A concrete tracked connection with a stale `lastHeartbeat` of 5. -/
def clientC8 : ClientInfo := ⟨"c1", true, 0, 5, none, "unknown"⟩

/-- A concrete state holding only `clientC8`. -/
def stateC8 : ServerState := ⟨[clientC8], [], [], [], 0, 0, 0⟩

/-- Counterexample to C8 as stated: an inbound `client_register` message
handled at time 99 leaves the connection's `lastHeartbeat` at 5; an
inbound message does not in general refresh it. -/
theorem claim_C8_cex :
    (getClientIn "c1" (handleMessage stateC8 "c1" (InMsg.client_register none) 99).state.clients).map
        (fun c => c.lastHeartbeat) = some 5 ∧
    (some (5 : Int) : Option Int) ≠ some 99 := by
  constructor
  · rfl
  · decide

/-- C7: one liveness sweep at time `now` removes exactly the connections
whose `lastHeartbeat` is older than twice the heartbeat interval (and
never a fresh one); a stale connection bound to a registered device
leaves that device marked disconnected, and the sweep emits exactly one
`device_status = disconnected` event per stale bound connection, each
delivered only to dashboard connections. -/
theorem claim_C7_liveness (s : ServerState) (now : Int) (c : ClientInfo) (d : String)
    (info : DeviceInfo) (hc : c ∈ s.clients) (hstale : staleB now c = true)
    (hd : c.deviceId = some d) (hinfo : lookupDevice d s.deviceData = some info) :
    (heartbeatSweep s now).1.clients = s.clients.filter (fun c' => !staleB now c') ∧
    lookupDevice d (heartbeatSweep s now).1.deviceData
      = some (markDisconnected now info) ∧
    (heartbeatSweep s now).2.map (fun ev => ev.payload)
      = s.clients.filterMap (fun c' =>
          if staleB now c' then
            c'.deviceId.bind (fun d' => (lookupDevice d' s.deviceData).map
              (fun _ => Payload.device_status (some d') none "disconnected"))
          else none) ∧
    (∀ ev ∈ (heartbeatSweep s now).2, ∀ t ∈ ev.targets,
      ∃ c', c' ∈ s.clients ∧ c'.id = t ∧ isDashboardConn c' = true) := by
  refine ⟨?_, ?_, ?_, ?_⟩
  · show (heartbeatSweepGo now [] s.clients s.deviceData).1 = _
    rw [heartbeatSweepGo_clients]
    rfl
  · show lookupDevice d (heartbeatSweepGo now [] s.clients s.deviceData).2.1 = _
    rw [heartbeatSweepGo_device now d s.clients [] s.deviceData info hinfo]
    rw [if_pos (List.any_eq_true.mpr ⟨c, hc, by simp [hstale, hd]⟩)]
  · show (heartbeatSweepGo now [] s.clients s.deviceData).2.2.map _ = _
    exact heartbeatSweepGo_payloads now s.clients [] s.deviceData
  · intro ev hev t ht
    exact heartbeatSweepGo_targets now (fun x => x ∈ s.clients) s.clients []
      s.deviceData (by simp) (fun x hx => hx) ev hev t ht

/-- A concrete stale connection bound to device `D1`. -/
def clientC7 : ClientInfo := ⟨"c7", true, 0, 0, some "D1", "unknown"⟩

/-- A concrete state holding the stale connection and its device. -/
def stateC7 : ServerState := ⟨[clientC7], [("D1", infoA)], [], [], 0, 0, 0⟩

/-- Witness for C7: at time 70000 the connection last seen at 0 exceeds
the staleness bound of 60000 and is swept. -/
theorem claim_C7_witness :
    clientC7 ∈ stateC7.clients ∧
    staleB 70000 clientC7 = true ∧
    clientC7.deviceId = some "D1" ∧
    lookupDevice "D1" stateC7.deviceData = some infoA ∧
    ((heartbeatSweep stateC7 70000).1.clients
        = stateC7.clients.filter (fun c' => !staleB 70000 c') ∧
     lookupDevice "D1" (heartbeatSweep stateC7 70000).1.deviceData
        = some (markDisconnected 70000 infoA) ∧
     (heartbeatSweep stateC7 70000).2.map (fun ev => ev.payload)
        = stateC7.clients.filterMap (fun c' =>
            if staleB 70000 c' then
              c'.deviceId.bind (fun d' => (lookupDevice d' stateC7.deviceData).map
                (fun _ => Payload.device_status (some d') none "disconnected"))
            else none) ∧
     (∀ ev ∈ (heartbeatSweep stateC7 70000).2, ∀ t ∈ ev.targets,
       ∃ c', c' ∈ stateC7.clients ∧ c'.id = t ∧ isDashboardConn c' = true)) :=
  ⟨by simp [stateC7], by decide, rfl, rfl,
   claim_C7_liveness stateC7 70000 clientC7 "D1" infoA
     (by simp [stateC7]) (by decide) rfl rfl⟩

theorem calculateMagnitude_99 : calculateMagnitude 99 0 0 = 4 := by
  unfold calculateMagnitude
  rw [show (99 : ℝ) ^ 2 + 0 ^ 2 + 0 ^ 2 = 99 ^ 2 by norm_num]
  rw [Real.sqrt_sq (by norm_num : (0 : ℝ) ≤ 99)]
  show max 0 (min (Real.logb 10 (99 + 1) * 2) 10) = 4
  rw [show (99 : ℝ) + 1 = (10 : ℝ) ^ (2 : ℝ) by
    rw [show (2 : ℝ) = ((2 : ℕ) : ℝ) by norm_num, Real.rpow_natCast]
    norm_num]
  rw [Real.logb_rpow (by norm_num) (by norm_num)]
  norm_num

theorem calculateMagnitude_zero : calculateMagnitude 0 0 0 = 0 := by
  unfold calculateMagnitude
  rw [show (0 : ℝ) ^ 2 + 0 ^ 2 + 0 ^ 2 = 0 by norm_num]
  rw [Real.sqrt_zero]
  show max 0 (min (Real.logb 10 (0 + 1) * 2) 10) = 0
  rw [zero_add, Real.logb_one]
  norm_num

/-- C4: an accepted sample whose computed magnitude is at least 3 has
`is_earthquake = true`, and the handler emits exactly one earthquake
alert event; the alert's level is the constant `warning` whatever the
magnitude, it references the device id, the stored magnitude and the
resolved location, and it is addressed to every open connection
regardless of role; the dashboard appends it to its alert buffer bounded
at 10 entries, newest first. -/
theorem claim_C4_alert (s : ServerState) (sender : Option String) (did ts : String)
    (ax ay az gx gy gz : ℝ) (now : Int) (info : DeviceInfo) (alerts : List AlertMsg)
    (hdid : did ≠ "") (hts : ts ≠ "")
    (hreg : lookupDevice did s.deviceData = some info)
    (hmag : 3 ≤ calculateMagnitude ax ay az)
    (halerts : alerts.length ≤ 10) :
    (mkEnhanced did ts ax ay az gx gy gz info.location now).is_earthquake = true ∧
    ((handleSensorData s sender
        ⟨some did, some ts, some ax, some ay, some az, some gx, some gy, some gz⟩
        now).events.filter isAlertEvent)
      = [broadcastToAll s.clients (Payload.earthquake_alert
          (mkAlert (mkEnhanced did ts ax ay az gx gy gz info.location now)))] ∧
    (mkAlert (mkEnhanced did ts ax ay az gx gy gz info.location now)).alert_level
      = "warning" ∧
    (mkAlert (mkEnhanced did ts ax ay az gx gy gz info.location now)).device_id = did ∧
    (mkAlert (mkEnhanced did ts ax ay az gx gy gz info.location now)).magnitude
      = (mkEnhanced did ts ax ay az gx gy gz info.location now).magnitude ∧
    (broadcastToAll s.clients (Payload.earthquake_alert
        (mkAlert (mkEnhanced did ts ax ay az gx gy gz info.location now)))).targets
      = (s.clients.filter (fun c => c.isOpen)).map (fun c => c.id) ∧
    (dashboardHandleEarthquakeAlert alerts
        (mkAlert (mkEnhanced did ts ax ay az gx gy gz info.location now))).length ≤ 10 ∧
    (dashboardHandleEarthquakeAlert alerts
        (mkAlert (mkEnhanced did ts ax ay az gx gy gz info.location now))).head?
      = some (mkAlert (mkEnhanced did ts ax ay az gx gy gz info.location now)) := by
  have hq : (mkEnhanced did ts ax ay az gx gy gz info.location now).is_earthquake = true := by
    show detectEarthquake (calculateMagnitude ax ay az) 3 = true
    exact detectEarthquake_eq_true hmag
  refine ⟨hq, ?_, rfl, rfl, rfl, rfl, ?_, ?_⟩
  · rw [handleSensorData_accept s sender did ts ax ay az gx gy gz now info hdid hts hreg]
    dsimp only
    rw [hq]
    cases sender with
    | none => simp [isAlertEvent, sendTo, broadcastToDashboards, broadcastToAll]
    | some cid => simp [isAlertEvent, sendTo, broadcastToDashboards, broadcastToAll]
  · unfold dashboardHandleEarthquakeAlert
    dsimp only
    split
    · next h =>
      rw [List.length_dropLast]
      simp only [List.length_cons]
      omega
    · next h =>
      simp only [List.length_cons] at h ⊢
      omega
  · unfold dashboardHandleEarthquakeAlert
    dsimp only
    split
    · next h =>
      cases alerts with
      | nil => simp at h
      | cons b t => rfl
    · rfl

/-- A concrete state with one registered device and one open monitor
connection. -/
def stateC4 : ServerState :=
  ⟨[⟨"w1", true, 0, 0, none, "monitor"⟩], [("D1", infoA)], [], [], 0, 0, 0⟩

/-- Witness for C4: axes `(99, 0, 0)` give magnitude 4 ≥ 3 and trigger
exactly one alert. -/
theorem claim_C4_witness :
    ("D1" : String) ≠ "" ∧ ("t1" : String) ≠ "" ∧
    lookupDevice "D1" stateC4.deviceData = some infoA ∧
    3 ≤ calculateMagnitude 99 0 0 ∧
    ([] : List AlertMsg).length ≤ 10 ∧
    ((mkEnhanced "D1" "t1" 99 0 0 0 0 0 infoA.location 7).is_earthquake = true ∧
     ((handleSensorData stateC4 (some "w1")
         ⟨some "D1", some "t1", some 99, some 0, some 0, some 0, some 0, some 0⟩
         7).events.filter isAlertEvent)
       = [broadcastToAll stateC4.clients (Payload.earthquake_alert
           (mkAlert (mkEnhanced "D1" "t1" 99 0 0 0 0 0 infoA.location 7)))] ∧
     (mkAlert (mkEnhanced "D1" "t1" 99 0 0 0 0 0 infoA.location 7)).alert_level
       = "warning" ∧
     (mkAlert (mkEnhanced "D1" "t1" 99 0 0 0 0 0 infoA.location 7)).device_id = "D1" ∧
     (mkAlert (mkEnhanced "D1" "t1" 99 0 0 0 0 0 infoA.location 7)).magnitude
       = (mkEnhanced "D1" "t1" 99 0 0 0 0 0 infoA.location 7).magnitude ∧
     (broadcastToAll stateC4.clients (Payload.earthquake_alert
         (mkAlert (mkEnhanced "D1" "t1" 99 0 0 0 0 0 infoA.location 7)))).targets
       = (stateC4.clients.filter (fun c => c.isOpen)).map (fun c => c.id) ∧
     (dashboardHandleEarthquakeAlert []
         (mkAlert (mkEnhanced "D1" "t1" 99 0 0 0 0 0 infoA.location 7))).length ≤ 10 ∧
     (dashboardHandleEarthquakeAlert []
         (mkAlert (mkEnhanced "D1" "t1" 99 0 0 0 0 0 infoA.location 7))).head?
       = some (mkAlert (mkEnhanced "D1" "t1" 99 0 0 0 0 0 infoA.location 7))) :=
  ⟨by decide, by decide, rfl, by rw [calculateMagnitude_99]; norm_num, by simp,
   claim_C4_alert stateC4 (some "w1") "D1" "t1" 99 0 0 0 0 0 7 infoA []
     (by decide) (by decide) rfl (by rw [calculateMagnitude_99]; norm_num) (by simp)⟩

/-- C5 (amended): the durable snapshot is written by an accepted sample
exactly when the post-append cache length is divisible by 100 or the
sample is an earthquake; while the cache is below its 1000-entry capacity
this is every 100th element of the cache, but once the cache is full its
length stays at 1000, so the snapshot is rewritten on every single
accepted sample; no other handler writes the snapshot during ingestion. -/
theorem claim_C5_snapshot (s : ServerState) (sender : Option String) (did ts : String)
    (ax ay az gx gy gz : ℝ) (now : Int) (info : DeviceInfo)
    (hdid : did ≠ "") (hts : ts ≠ "")
    (hreg : lookupDevice did s.deviceData = some info) :
    (handleSensorData s sender
        ⟨some did, some ts, some ax, some ay, some az, some gx, some gy, some gz⟩
        now).snapshotWritten
      = (((handleSensorData s sender
          ⟨some did, some ts, some ax, some ay, some az, some gx, some gy, some gz⟩
          now).state.dataCache.length % 100 == 0)
        || (mkEnhanced did ts ax ay az gx gy gz info.location now).is_earthquake) ∧
    (s.dataCache.length = MAX_CACHE_SIZE →
      (handleSensorData s sender
        ⟨some did, some ts, some ax, some ay, some az, some gx, some gy, some gz⟩
        now).snapshotWritten = true) ∧
    (s.dataCache.length < MAX_CACHE_SIZE →
      ((handleSensorData s sender
          ⟨some did, some ts, some ax, some ay, some az, some gx, some gy, some gz⟩
          now).snapshotWritten = true ↔
        ((s.dataCache.length + 1) % 100 = 0 ∨
          (mkEnhanced did ts ax ay az gx gy gz info.location now).is_earthquake = true))) ∧
    (∀ cid2 d2 l2 now2,
      (handleDeviceRegister s cid2 d2 l2 now2).snapshotWritten = false) ∧
    (∀ cid2 d2 now2, (handleHeartbeat s cid2 d2 now2).snapshotWritten = false) ∧
    (∀ cid2 d2 b2 g2 f2 now2,
      (handleStatusUpdate s cid2 d2 b2 g2 f2 now2).snapshotWritten = false) := by
  refine ⟨?_, ?_, ?_, ?_, ?_, ?_⟩
  · rw [handleSensorData_accept s sender did ts ax ay az gx gy gz now info hdid hts hreg]
  · intro hfull
    rw [handleSensorData_accept s sender did ts ax ay az gx gy gz now info hdid hts hreg]
    dsimp only
    rw [pushBounded_length_of_full MAX_CACHE_SIZE s.dataCache _
      (by norm_num [MAX_CACHE_SIZE]) hfull]
    simp [MAX_CACHE_SIZE]
  · intro hlt
    rw [handleSensorData_accept s sender did ts ax ay az gx gy gz now info hdid hts hreg]
    dsimp only
    rw [pushBounded_length_of_lt MAX_CACHE_SIZE s.dataCache _ hlt]
    simp
  · intro cid2 d2 l2 now2
    exact handleDeviceRegister_snapshot s cid2 d2 l2 now2
  · intro cid2 d2 now2
    exact handleHeartbeat_snapshot s cid2 d2 now2
  · intro cid2 d2 b2 g2 f2 now2
    exact handleStatusUpdate_snapshot s cid2 d2 b2 g2 f2 now2

/-- Witness for C5 at the one-device state with an empty cache. -/
theorem claim_C5_witness :
    ("D1" : String) ≠ "" ∧ ("t1" : String) ≠ "" ∧
    lookupDevice "D1" stateC4.deviceData = some infoA ∧
    ((handleSensorData stateC4 none
        ⟨some "D1", some "t1", some 0, some 0, some 0, some 0, some 0, some 0⟩
        3).snapshotWritten
      = (((handleSensorData stateC4 none
          ⟨some "D1", some "t1", some 0, some 0, some 0, some 0, some 0, some 0⟩
          3).state.dataCache.length % 100 == 0)
        || (mkEnhanced "D1" "t1" 0 0 0 0 0 0 infoA.location 3).is_earthquake) ∧
    (stateC4.dataCache.length = MAX_CACHE_SIZE →
      (handleSensorData stateC4 none
        ⟨some "D1", some "t1", some 0, some 0, some 0, some 0, some 0, some 0⟩
        3).snapshotWritten = true) ∧
    (stateC4.dataCache.length < MAX_CACHE_SIZE →
      ((handleSensorData stateC4 none
          ⟨some "D1", some "t1", some 0, some 0, some 0, some 0, some 0, some 0⟩
          3).snapshotWritten = true ↔
        ((stateC4.dataCache.length + 1) % 100 = 0 ∨
          (mkEnhanced "D1" "t1" 0 0 0 0 0 0 infoA.location 3).is_earthquake = true))) ∧
    (∀ cid2 d2 l2 now2,
      (handleDeviceRegister stateC4 cid2 d2 l2 now2).snapshotWritten = false) ∧
    (∀ cid2 d2 now2, (handleHeartbeat stateC4 cid2 d2 now2).snapshotWritten = false) ∧
    (∀ cid2 d2 b2 g2 f2 now2,
      (handleStatusUpdate stateC4 cid2 d2 b2 g2 f2 now2).snapshotWritten = false)) :=
  ⟨by decide, by decide, rfl,
   claim_C5_snapshot stateC4 none "D1" "t1" 0 0 0 0 0 0 3 infoA
     (by decide) (by decide) rfl⟩

/-- A concrete state whose snapshot cache is already full (1000 entries). -/
def stateC5 : ServerState :=
  ⟨[], [("D1", infoA)], [], List.replicate 1000 dummyRecord, 0, 0, 0⟩

theorem stateC5_cache_full : stateC5.dataCache.length = MAX_CACHE_SIZE := by
  show (List.replicate 1000 dummyRecord).length = MAX_CACHE_SIZE
  rw [List.length_replicate]
  rfl

theorem mkEnhanced_zero_not_earthquake (ts : String) (loc : Option String) (now : Int) :
    (mkEnhanced "D1" ts 0 0 0 0 0 0 loc now).is_earthquake = false := by
  show detectEarthquake (calculateMagnitude 0 0 0) 3 = false
  rw [calculateMagnitude_zero]
  exact detectEarthquake_eq_false (by norm_num)

/-- Counterexample to C5 as stated: starting from a full cache, two
consecutive accepted non-earthquake samples both rewrite the snapshot
file — two consecutive samples cannot both be a 100th accepted sample,
so the snapshot is written at points the claim excludes. -/
theorem claim_C5_cex :
    (handleSensorData stateC5 none
        ⟨some "D1", some "t1", some 0, some 0, some 0, some 0, some 0, some 0⟩
        0).snapshotWritten = true ∧
    (handleSensorData
        (handleSensorData stateC5 none
          ⟨some "D1", some "t1", some 0, some 0, some 0, some 0, some 0, some 0⟩
          0).state none
        ⟨some "D1", some "t2", some 0, some 0, some 0, some 0, some 0, some 0⟩
        1).snapshotWritten = true ∧
    (mkEnhanced "D1" "t1" 0 0 0 0 0 0 infoA.location 0).is_earthquake = false ∧
    (mkEnhanced "D1" "t2" 0 0 0 0 0 0 infoA.location 1).is_earthquake = false := by
  have hreg0 : lookupDevice "D1" stateC5.deviceData = some infoA := rfl
  refine ⟨?_, ?_, mkEnhanced_zero_not_earthquake "t1" infoA.location 0,
    mkEnhanced_zero_not_earthquake "t2" infoA.location 1⟩
  · rw [handleSensorData_accept stateC5 none "D1" "t1" 0 0 0 0 0 0 0 infoA
      (by decide) (by decide) hreg0]
    dsimp only
    rw [pushBounded_length_of_full MAX_CACHE_SIZE stateC5.dataCache _
      (by norm_num [MAX_CACHE_SIZE]) stateC5_cache_full]
    simp [MAX_CACHE_SIZE]
  · have hreg1 : lookupDevice "D1" (updateDevice stateC5.deviceData "D1"
        (fun i =>
          { i with
            lastSeen := (0 : Int)
            history := pushBounded MAX_HISTORY_SIZE i.history
              (mkEnhanced "D1" "t1" 0 0 0 0 0 0 infoA.location 0) }))
        = some
          { infoA with
            lastSeen := (0 : Int)
            history := pushBounded MAX_HISTORY_SIZE infoA.history
              (mkEnhanced "D1" "t1" 0 0 0 0 0 0 infoA.location 0) } := by
      rw [lookupDevice_updateDevice, if_pos rfl, hreg0]
      rfl
    rw [handleSensorData_accept stateC5 none "D1" "t1" 0 0 0 0 0 0 0 infoA
      (by decide) (by decide) hreg0]
    dsimp only
    rw [handleSensorData_accept _ none "D1" "t2" 0 0 0 0 0 0 1
      ({ infoA with
          lastSeen := (0 : Int)
          history := pushBounded MAX_HISTORY_SIZE infoA.history
            (mkEnhanced "D1" "t1" 0 0 0 0 0 0 infoA.location 0) })
      (by decide) (by decide) hreg1]
    dsimp only
    rw [pushBounded_length_of_full MAX_CACHE_SIZE _ _
      (by norm_num [MAX_CACHE_SIZE])
      (pushBounded_length_of_full MAX_CACHE_SIZE stateC5.dataCache _
        (by norm_num [MAX_CACHE_SIZE]) stateC5_cache_full)]
    simp [MAX_CACHE_SIZE]

end EQD
